import Mathlib

/-!
Verification of the taste-analysis / recommendation engine
(`recommendations.py`, `LikedToPlaylist.py`) as a shallow embedding.

External effects (Spotify API responses, MusicBrainz enrichment, random
draws, wall-clock readings) are passed in explicitly as "world" data, so
every function of the source becomes a deterministic Lean function of its
inputs plus the world.  Python dict-truthiness on optional string fields
(`if track.get('id'):` …) is modelled by `truthyStr`: a field is truthy
iff it is `some s` with `s ≠ ""`.  Scores are rationals (`ℚ`); Python
floats only ever hold small decimal constants here.
-/

/-- An artist entry of a track, as delivered by the API: `{'id': …, 'name': …}`. -/
structure SimpleArtist where
  id : Option String
  name : String
  deriving DecidableEq

/-- The album entry of a track: `{'id': …, 'release_date': …}`. -/
structure SimpleAlbum where
  id : Option String
  release_date : String
  deriving DecidableEq

/-- A track dict as used by the analyzer and the engine. -/
structure Track where
  id : Option String
  uri : Option String
  name : String
  artists : List SimpleArtist
  album : SimpleAlbum
  popularity : Nat
  deriving DecidableEq

/-- MusicBrainz enrichment record for one artist
(`{'mb_genres': …, 'mb_tags': …, 'mb_rating': …}`). -/
structure MBData where
  mb_genres : List String
  mb_tags : List String
  mb_rating : ℚ
  deriving DecidableEq

/-- Caller-supplied `preferences` dict; every key is optional
(`preferences.get('mood')`, `preferences.get('era')`,
`preferences.get('discovery', 50)`). -/
structure Preferences where
  mood : Option String
  era : Option String
  discovery : Option Int
  deriving DecidableEq

/-- Python truthiness of an optional string: `None` and `''` are falsy. -/
def truthyStr : Option String → Option String
  | some s => if s = "" then none else some s
  | none => none

/-- `track_artist_ids = [a.get('id') for a in track.get('artists', []) if a.get('id')]`. -/
def track_artist_ids (t : Track) : List String :=
  t.artists.filterMap fun a => truthyStr a.id

/-- `RecommendationEngine.MOOD_TAG_MAPPING` (dict lookup as a partial map). -/
def MOOD_TAG_MAPPING : String → Option (List String)
  | "chill" => some ["chill", "relaxed", "calm", "mellow", "ambient", "peaceful", "soft"]
  | "energetic" => some ["energetic", "upbeat", "party", "dance", "hype", "intense", "fast"]
  | "sad" => some ["melancholic", "sad", "depressing", "emotional", "dark", "somber"]
  | "happy" => some ["happy", "cheerful", "positive", "uplifting", "feel-good", "joyful"]
  | _ => none

/-- Factor 1 of `score_track`: +40 for a track by one of the user's
artists, otherwise +25. -/
def artistFactor (tids user_artist_ids : List String) : ℚ :=
  if tids.any (fun aid => aid ∈ user_artist_ids) then 40 else 25

/-- Factor 2 of `score_track`: Spotify genre matching.  The
`self.sp.artist(...)` call is world data `artistGenres`; `none` models the
call failing, in which case the bare `except` skips the factor. -/
def genreFactor (tids target_genres : List String)
    (artistGenres : String → Option (List String)) : ℚ :=
  match tids with
  | [] => 0
  | a0 :: _ =>
    match artistGenres a0 with
    | none => 0
    | some gs =>
      let artist_genres := gs.map (fun g => g.toLower)
      let tgl := target_genres.map (fun g => g.toLower)
      let genre_matches := (artist_genres.filter (fun g => g ∈ tgl)).length
      if genre_matches > 0 then ((min 25 (genre_matches * 8) : ℕ) : ℚ) else 0

/-- Factor 3 of `score_track`: popularity sweet spot. -/
def popularityFactor (popularity : Nat) : ℚ :=
  if 40 ≤ popularity ∧ popularity ≤ 80 then 10
  else if 80 < popularity then 7
  else if 20 ≤ popularity then 5
  else 2

/-- Factors 4-7 of `score_track`: the MusicBrainz block.  `mbLookup`
models `mb_enrichment.get(primary_artist_id)` (with
`MUSICBRAINZ_AVAILABLE = False` or an empty/missing enrichment dict
folded into `none`).  Note the mood bonus is nested inside the
`if mb_tags:` branch, exactly as in the source. -/
def mbFactor (tids target_genres : List String)
    (mbLookup : String → Option MBData) (prefs : Preferences) : ℚ :=
  match tids with
  | [] => 0
  | a0 :: _ =>
    match mbLookup a0 with
    | none => 0
    | some mb =>
      let tgl := target_genres.map (fun g => g.toLower)
      let mb_genres := mb.mb_genres.map (fun g => g.toLower)
      let genreBonus : ℚ :=
        if mb_genres ≠ [] then
          let m := (mb_genres.filter (fun g => g ∈ tgl)).length
          if m > 0 then ((min 20 (m * 5) : ℕ) : ℚ) else 0
        else 0
      let mb_tags := mb.mb_tags.map (fun t => t.toLower)
      let tagBonus : ℚ :=
        if mb_tags ≠ [] then ((min 15 ((mb_tags.take 5).length * 3) : ℕ) : ℚ) else 0
      let moodBonus : ℚ :=
        if mb_tags ≠ [] then
          match truthyStr prefs.mood with
          | some mood =>
            match MOOD_TAG_MAPPING mood with
            | some target_mood_tags =>
              if target_mood_tags.any (fun tg => tg ∈ mb_tags) then 10 else 0
            | none => 0
          | none => 0
        else 0
      let ratingBonus : ℚ := if 0 < mb.mb_rating then mb.mb_rating / 100 * 5 else 0
      genreBonus + tagBonus + moodBonus + ratingBonus

/-- Digit-string value, `none` on empty input or any non-digit
(the cases where Python `int(...)` raises). -/
def digitsVal (cs : List Char) : Option Nat :=
  if cs = [] ∨ cs.any (fun c => ¬ c.isDigit) then none
  else some (cs.foldl (fun n c => 10 * n + (c.toNat - 48)) 0)

/-- `int(...)` on a short character string: optional sign then digits. -/
def intOfChars (cs : List Char) : Option Int :=
  match cs with
  | '-' :: rest => (digitsVal rest).map (fun n => -(n : Int))
  | '+' :: rest => (digitsVal rest).map (fun n => ((n : Int)))
  | _ => (digitsVal cs).map (fun n => ((n : Int)))

/-- `int(release_date[:4])` guarded by `if release_date and len(release_date) >= 4`;
`none` models the guard failing or `int` raising (the whole era factor is
then skipped by the bare `except`). -/
def yearOf (release_date : String) : Option Int :=
  if release_date.length ≥ 4 then intOfChars (release_date.toList.take 4) else none

/-- The "no era preference" sub-branch of factor 8: recent-release bonus. -/
def recencyBonus (year current_year : Int) : ℚ :=
  if year ≥ current_year - 1 then 5
  else if year ≥ current_year - 3 then 3
  else 0

/-- Factor 8 of `score_track`: era preference (+30 match / -20 mismatch),
else the recency bonus. -/
def eraFactor (release_date : String) (prefs : Preferences) (current_year : Int) : ℚ :=
  match yearOf release_date with
  | none => 0
  | some year =>
    match truthyStr prefs.era with
    | some e =>
      if e = "any" then recencyBonus year current_year
      else if e = "2020s" ∧ year ≥ 2020 then 30
      else if e = "2010s" ∧ 2010 ≤ year ∧ year < 2020 then 30
      else if e = "2000s" ∧ 2000 ≤ year ∧ year < 2010 then 30
      else if e = "90s" ∧ 1990 ≤ year ∧ year < 2000 then 30
      else if e = "80s" ∧ year < 1990 then 30
      else -20
    | none => recencyBonus year current_year

/-- Factor 10 of `score_track`: discovery-slider adjustment.  Note the
source applies the raw `preferences.get('discovery', 50)` value with no
clamping. -/
def discoveryFactor (discovery_level : Int) (is_users_artist : Bool) : ℚ :=
  if discovery_level ≠ 50 then
    if discovery_level > 50 then
      if ¬ is_users_artist then ((discovery_level : ℚ) - 50) / 50 * 10 else 0
    else
      if is_users_artist then (50 - (discovery_level : ℚ)) / 50 * 10 else 0
  else 0

/-- `RecommendationEngine.score_track`.  `jitter` is the
`random.uniform(-5, 5)` draw of factor 11, made an explicit input.  The
diversity penalty (factor 9) multiplies the score accumulated so far
(factors 1-8) by 0.85 before the discovery adjustment and jitter are
added, exactly as in the source.  (Source quirk not modelled: if the
`sp.artist` call of factor 2 raises while enrichment data is present,
the source would hit a `NameError` on `target_genres_lower`; here the
lowered target genres are always available.) -/
def score_track (t : Track) (target_genres user_artist_ids : List String)
    (artistGenres : String → Option (List String)) (mbLookup : String → Option MBData)
    (seen_albums : List String) (prefs : Preferences) (current_year : Int)
    (jitter : ℚ) : ℚ :=
  let tids := track_artist_ids t
  let base := artistFactor tids user_artist_ids
    + genreFactor tids target_genres artistGenres
    + popularityFactor t.popularity
    + mbFactor tids target_genres mbLookup prefs
  let withEra := base + eraFactor t.album.release_date prefs current_year
  let afterDiversity :=
    match truthyStr t.album.id with
    | some aid => if aid ∈ seen_albums then withEra * (17 / 20) else withEra
    | none => withEra
  afterDiversity
    + discoveryFactor (prefs.discovery.getD 50) (tids.any (fun aid => aid ∈ user_artist_ids))
    + jitter

/-- Replace only the release date of a track (used to state "identical
except for release year"). -/
def withReleaseDate (t : Track) (rd : String) : Track :=
  { t with album := { t.album with release_date := rd } }

/-- `score_track` unrolled when the track's album has not been seen
before (the diversity multiplier does not fire). -/
theorem score_track_eq_of_album_not_seen (t : Track) (tg ua : List String)
    (ag : String → Option (List String)) (mbL : String → Option MBData)
    (seen_albums : List String) (prefs : Preferences) (cy : Int) (j : ℚ)
    (hseen : ∀ aid, t.album.id = some aid → aid ∉ seen_albums) :
    score_track t tg ua ag mbL seen_albums prefs cy j
      = artistFactor (track_artist_ids t) ua + genreFactor (track_artist_ids t) tg ag
        + popularityFactor t.popularity + mbFactor (track_artist_ids t) tg mbL prefs
        + eraFactor t.album.release_date prefs cy
        + discoveryFactor (prefs.discovery.getD 50)
            ((track_artist_ids t).any (fun aid => aid ∈ ua))
        + j := by
  unfold score_track
  rcases h : t.album.id with _ | aid
  · simp [h, truthyStr]
  · by_cases ha : aid = ""
    · simp [h, truthyStr, ha]
    · have hmem : aid ∉ seen_albums := hseen aid h
      simp [h, truthyStr, ha, hmem]

/-- C4 amended: with `era = "2020s"`, a 2021 release scores exactly
`50 + j1 - j2` more than an otherwise identical 1995 release (jitters
`j1`, `j2` being the two `uniform(-5, 5)` draws), hence at least 40,
provided the shared album was not already seen in the scoring pass. -/
theorem claim_C4 (t : Track) (rd1 rd2 : String)
    (target_genres user_artist_ids : List String)
    (artistGenres : String → Option (List String)) (mbLookup : String → Option MBData)
    (seen_albums : List String) (prefs : Preferences) (current_year : Int) (j1 j2 : ℚ)
    (h1 : yearOf rd1 = some 2021) (h2 : yearOf rd2 = some 1995)
    (hera : prefs.era = some "2020s")
    (hseen : ∀ aid, t.album.id = some aid → aid ∉ seen_albums)
    (hj1l : -5 ≤ j1) (hj1u : j1 ≤ 5) (hj2l : -5 ≤ j2) (hj2u : j2 ≤ 5) :
    score_track (withReleaseDate t rd1) target_genres user_artist_ids artistGenres mbLookup
        seen_albums prefs current_year j1
      - score_track (withReleaseDate t rd2) target_genres user_artist_ids artistGenres mbLookup
        seen_albums prefs current_year j2
      = 50 + (j1 - j2)
    ∧ score_track (withReleaseDate t rd1) target_genres user_artist_ids artistGenres mbLookup
        seen_albums prefs current_year j1
      - score_track (withReleaseDate t rd2) target_genres user_artist_ids artistGenres mbLookup
        seen_albums prefs current_year j2
      ≥ 40 := by
  have htr : truthyStr prefs.era = some "2020s" := by rw [hera]; rfl
  have he1 : eraFactor rd1 prefs current_year = 30 := by
    unfold eraFactor
    simp [h1, htr]
  have he2 : eraFactor rd2 prefs current_year = -20 := by
    unfold eraFactor
    simp [h2, htr]
  have hs1 := score_track_eq_of_album_not_seen (withReleaseDate t rd1) target_genres
    user_artist_ids artistGenres mbLookup seen_albums prefs current_year j1 hseen
  have hs2 := score_track_eq_of_album_not_seen (withReleaseDate t rd2) target_genres
    user_artist_ids artistGenres mbLookup seen_albums prefs current_year j2 hseen
  rw [hs1, hs2]
  rw [show track_artist_ids (withReleaseDate t rd1) = track_artist_ids t from rfl]
  rw [show track_artist_ids (withReleaseDate t rd2) = track_artist_ids t from rfl]
  rw [show (withReleaseDate t rd1).popularity = t.popularity from rfl]
  rw [show (withReleaseDate t rd2).popularity = t.popularity from rfl]
  rw [show (withReleaseDate t rd1).album.release_date = rd1 from rfl]
  rw [show (withReleaseDate t rd2).album.release_date = rd2 from rfl]
  rw [he1, he2]
  constructor
  · ring
  · nlinarith [hj1l, hj2u]

/-- A concrete track used in counterexamples/witnesses for C4. -/
def c4Track : Track :=
  { id := some "trk1", uri := some "spotify:track:trk1", name := "Song A",
    artists := [{ id := some "art1", name := "Artist One" }],
    album := { id := some "alb1", release_date := "2021-06-01" }, popularity := 50 }

/-- C4 counterexample: with the two `uniform(-5, 5)` jitter draws at the
extremes (-5 for the 2021 track, +5 for the 1995 track), the score gap is
40, strictly less than the claimed 50. -/
theorem claim_C4_counterexample :
    score_track (withReleaseDate c4Track "2021-06-01") [] [] (fun _ => none) (fun _ => none)
        [] { mood := none, era := some "2020s", discovery := none } 2025 (-5)
      - score_track (withReleaseDate c4Track "1995-06-01") [] [] (fun _ => none) (fun _ => none)
        [] { mood := none, era := some "2020s", discovery := none } 2025 5
      < 50 := by
  have hy1 : yearOf "2021-06-01" = some 2021 := by decide
  have hy2 : yearOf "1995-06-01" = some 1995 := by decide
  have e1 : score_track (withReleaseDate c4Track "2021-06-01") [] [] (fun _ => none)
      (fun _ => none) [] { mood := none, era := some "2020s", discovery := none } 2025 (-5)
      = 60 := by
    simp +decide [score_track, withReleaseDate, c4Track, track_artist_ids, truthyStr, artistFactor,
      genreFactor, popularityFactor, mbFactor, eraFactor, discoveryFactor, hy1]
    norm_num
  have e2 : score_track (withReleaseDate c4Track "1995-06-01") [] [] (fun _ => none)
      (fun _ => none) [] { mood := none, era := some "2020s", discovery := none } 2025 5
      = 20 := by
    simp +decide [score_track, withReleaseDate, c4Track, track_artist_ids, truthyStr, artistFactor,
      genreFactor, popularityFactor, mbFactor, eraFactor, discoveryFactor, hy2]
    norm_num
  rw [e1, e2]
  norm_num

/-- C4 witness: the amended theorem applied at a concrete input. -/
theorem claim_C4_witness :
    score_track (withReleaseDate c4Track "2021-06-01") [] [] (fun _ => none) (fun _ => none)
        [] { mood := none, era := some "2020s", discovery := none } 2025 (-5)
      - score_track (withReleaseDate c4Track "1995-06-01") [] [] (fun _ => none) (fun _ => none)
        [] { mood := none, era := some "2020s", discovery := none } 2025 5
      ≥ 40 :=
  (claim_C4 c4Track "2021-06-01" "1995-06-01" [] [] (fun _ => none) (fun _ => none)
    [] { mood := none, era := some "2020s", discovery := none } 2025 (-5) 5
    (by decide) (by decide) rfl
    (by intro aid h hmem; exact absurd hmem (List.not_mem_nil aid))
    (by norm_num) (by norm_num) (by norm_num) (by norm_num)).2

/-- C9 amended: the discovery value is used unclamped, but for any
discovery value inside the documented 0-100 range the slider adjustment
is at most 10 in absolute value. -/
theorem claim_C9 (d : Int) (b : Bool) (h0 : 0 ≤ d) (h100 : d ≤ 100) :
    |discoveryFactor d b| ≤ 10 := by
  have hd0 : (0 : ℚ) ≤ (d : ℚ) := by exact_mod_cast h0
  have hd100 : (d : ℚ) ≤ 100 := by exact_mod_cast h100
  unfold discoveryFactor
  split_ifs <;> rw [abs_le] <;> constructor <;> linarith

/-- C9 counterexample: the implementation does not clamp; for the
out-of-range discovery value 150 the slider adjustment is 20, exceeding
the claimed maximum of 10 in absolute value (and differing from the
value a clamp to 100 would produce). -/
theorem claim_C9_counterexample :
    discoveryFactor 150 false = 20 ∧ 10 < |discoveryFactor 150 false| := by
  have h : discoveryFactor 150 false = 20 := by norm_num [discoveryFactor]
  refine ⟨h, ?_⟩
  rw [h]
  norm_num

/-- C9 witness: the amended bound applied at a concrete in-range input. -/
theorem claim_C9_witness : |discoveryFactor 70 false| ≤ 10 :=
  claim_C9 70 false (by norm_num) (by norm_num)

/-!
## Taste analyzer (`MusicTasteAnalyzer.analyze_taste`)

External inputs of one analysis run: the API responses of each stage
(already past the per-stage retry/〝swallow and degrade〞 handling inside
`get_liked_song_ids_for_exclusion`, `get_liked_songs`,
`get_user_playlists`, `get_playlist_tracks`, `get_artist_genres` and
`get_track_audio_features`, all of which catch their own errors and
return partial data) and the wall-clock readings taken at each budget
gate.
-/

/-- World data of one `analyze_taste` run. -/
structure AnalyzeWorld where
  /-- result of `get_liked_song_ids_for_exclusion(limit=200)` (partial on failure). -/
  exclusionIds : List String
  /-- result of `get_liked_songs(limit=liked_songs_limit)` ([] on failure). -/
  likedSongs : List Track
  /-- `time.time() - start_time` at the emergency check after step 1. -/
  elapsedAfterLiked : ℚ
  /-- elapsed time at the 30%-budget playlist gate. -/
  elapsedAtPlaylistGate : ℚ
  /-- playlist ids from `get_user_playlists(limit=1)`. -/
  playlists : List (Option String)
  /-- result of `get_playlist_tracks(pid, limit=3)` before its `[:limit]`. -/
  playlistTracks : String → List Track
  /-- elapsed time at the 50%-budget genre gate. -/
  elapsedAtGenreGate : ℚ
  /-- result of `get_artist_genres(ids)`: the genre→count dict, in insertion order. -/
  artistGenres : List String → List (String × Nat)
  /-- elapsed time at the 60%-budget audio-features gate. -/
  elapsedAtAudioGate : ℚ
  /-- the seeded `random.sample(track_ids, 15)` choice, as index draws. -/
  sampleSeed : List Nat
  /-- result of `get_track_audio_features(ids)`: the averaged feature dict. -/
  audioFeatures : List String → List (String × ℚ)

/-- A stage's budget gate: `elapsed > max_analysis_time * frac` means the
stage is skipped. -/
def gateExceeded (elapsed budget frac : ℚ) : Bool :=
  elapsed > budget * frac

/-- The tracks contributed by the (extremely limited) playlist attempt:
first playlist only, first 3 tracks, any failure already degraded to
empty lists in the world data. -/
def playlistContribution (w : AnalyzeWorld) : List Track :=
  match w.playlists.take 1 with
  | [] => []
  | pid? :: _ =>
    match truthyStr pid? with
    | some pid => (w.playlistTracks pid).take 3
    | none => []

/-- One step of the dict comprehension
`{track['id']: track for track in all_tracks if track.get('id')}`:
inserting key `tid` keeps first-insertion position but overwrites the
value (last-writer wins). -/
def dedupInsert (acc : List (String × Track)) (tid : String) (t : Track) :
    List (String × Track) :=
  if acc.any (fun p => p.1 = tid) then acc.map (fun p => if p.1 = tid then (tid, t) else p)
  else acc ++ [(tid, t)]

/-- The full dict comprehension, as an association list in key-insertion order. -/
def dedupPairs : List Track → List (String × Track) → List (String × Track)
  | [], acc => acc
  | t :: ts, acc =>
    match truthyStr t.id with
    | some tid => dedupPairs ts (dedupInsert acc tid t)
    | none => dedupPairs ts acc

/-- `all_tracks = list(unique_tracks.values())`. -/
def dedupedTracks (tracks : List Track) : List Track :=
  (dedupPairs tracks []).map (fun p => p.2)

/-- One `artist_counter[artist['id']] += 1` step on an insertion-ordered
counter. -/
def bumpCounter (acc : List (String × Nat)) (k : String) : List (String × Nat) :=
  if acc.any (fun p => p.1 = k) then acc.map (fun p => if p.1 = k then (p.1, p.2 + 1) else p)
  else acc ++ [(k, 1)]

/-- The `Counter` of artist-id occurrences across the (deduplicated)
tracks, in first-seen order. -/
def artistCounter (tracks : List Track) : List (String × Nat) :=
  tracks.foldl
    (fun acc t => t.artists.foldl
      (fun acc2 a =>
        match truthyStr a.id with
        | some aid => bumpCounter acc2 aid
        | none => acc2) acc)
    []

/-- Insert into a descending-by-key sorted list, before the first element
whose key is not strictly greater (so an element keeps its original
position relative to equal-key elements inserted after it). -/
def insertDescBy {α β : Type} [LinearOrder β] (key : α → β) (p : α) :
    List α → List α
  | [] => [p]
  | q :: qs => if key q > key p then q :: insertDescBy key p qs else p :: q :: qs

/-- Stable sort, descending by `key`: element-for-element the list
produced by Python's stable `sorted(l, key=key, reverse=True)` (and by
`heapq.nlargest`, which `Counter.most_common` uses and which the library
documents as equivalent to that `sorted` expression). -/
def sortDescBy {α β : Type} [LinearOrder β] (key : α → β) : List α → List α
  | [] => []
  | p :: ps => insertDescBy key p (sortDescBy key ps)

/-- `most_common(n)` / `sorted(items, key=itemgetter(1), reverse=True)[:n]`. -/
def most_common (counter : List (String × Nat)) (n : Nat) : List (String × Nat) :=
  (sortDescBy (fun p => p.2) counter).take n

/-- `top_artist_ids = [artist_id for artist_id, _ in artist_counter.most_common(10)]`,
as computed from a raw (pre-dedup) collected track list. -/
def topArtistIds (tracks : List Track) : List String :=
  (most_common (artistCounter (dedupedTracks tracks)) 10).map (fun p => p.1)

/-- `random.sample(population, k)` modelled by world-chosen index draws;
only ever called when `population` has more than `k` elements. -/
def sampleK (k : Nat) (draws : List Nat) (l : List String) : List String :=
  (draws.filterMap (fun i => l[i]?)).take k

/-- Count of the value of `(A, c)` in an insertion-ordered counter, 0 when
absent. -/
def lookupCount (counter : List (String × Nat)) (k : String) : Nat :=
  match counter.find? (fun p => p.1 = k) with
  | some p => p.2
  | none => 0

/-- Frequency of an artist id across the analyzed (deduplicated) tracks. -/
def countOf (tracks : List Track) (aid : String) : Nat :=
  lookupCount (artistCounter (dedupedTracks tracks)) aid

/-- The result dict of `analyze_taste`.  The error dict of the source has
only the `error` and `track_count` keys; the remaining fields then hold
their model defaults. -/
structure Analysis where
  error : Option String
  track_count : Nat
  unique_artists : Nat
  top_genres : List (String × Nat)
  top_artist_ids : List String
  avg_audio_features : List (String × ℚ)
  genre_seeds : List String
  liked_track_ids : List String
  deriving DecidableEq

/-- The `'No tracks found to analyze'` error result. -/
def noTracksResult : Analysis :=
  { error := some "No tracks found to analyze. Please ensure you have liked songs in your Spotify library.",
    track_count := 0, unique_artists := 0, top_genres := [], top_artist_ids := [],
    avg_audio_features := [], genre_seeds := [], liked_track_ids := [] }

/-- `MusicTasteAnalyzer.analyze_taste`.  `Except.error` is the raised
`TimeoutException`; every other path returns a dict (`Except.ok`).
`_tracks_per_playlist` is accepted but unused, exactly as in the source,
whose playlist attempt hardcodes 1 playlist and 3 tracks.  The wall-clock
`analysis_time` field of the result dict is not modelled. -/
def analyze_taste (include_playlists : Bool) (playlist_limit : Nat)
    ( _tracks_per_playlist : Nat) (liked_songs_limit : Nat)
    (max_analysis_time : ℚ) (w : AnalyzeWorld) : Except String Analysis :=
  let liked_song_ids_for_exclusion := w.exclusionIds
  let liked_tracks := w.likedSongs.take liked_songs_limit
  if w.elapsedAfterLiked > 10 then
    Except.error "Analysis exceeded safe limits"
  else
    let all_tracks := liked_tracks ++
      (if include_playlists ∧ playlist_limit > 0
          ∧ ¬ gateExceeded w.elapsedAtPlaylistGate max_analysis_time (3 / 10)
        then playlistContribution w else [])
    if all_tracks = [] then
      Except.ok noTracksResult
    else
      let unique := dedupedTracks all_tracks
      let counter := artistCounter unique
      let artist_ids := counter.map (fun p => p.1)
      let top_artist_ids := (most_common counter 10).map (fun p => p.1)
      let top_genres :=
        if gateExceeded w.elapsedAtGenreGate max_analysis_time (1 / 2) then []
        else most_common (w.artistGenres (top_artist_ids.take 10)) 10
      let avg_features :=
        if gateExceeded w.elapsedAtAudioGate max_analysis_time (3 / 5) then []
        else
          let track_ids := unique.filterMap (fun t => truthyStr t.id)
          let track_ids :=
            if track_ids.length > 15 then sampleK 15 w.sampleSeed track_ids else track_ids
          w.audioFeatures track_ids
      let excl :=
        if liked_song_ids_for_exclusion = []
        then unique.filterMap (fun t => truthyStr t.id)
        else liked_song_ids_for_exclusion
      Except.ok
        { error := none, track_count := unique.length, unique_artists := artist_ids.length,
          top_genres := top_genres, top_artist_ids := top_artist_ids,
          avg_audio_features := avg_features,
          genre_seeds := if top_genres ≠ [] then (top_genres.take 5).map (fun p => p.1) else [],
          liked_track_ids := excl }

/-- Number of budget-gated analysis stages that are completed (not
skipped) for a given budget `b`: the playlist fetch (30% gate), genre
aggregation (50% gate) and audio-feature averaging (60% gate). -/
def stagesCompleted (include_playlists : Bool) (playlist_limit : Nat)
    (b : ℚ) (w : AnalyzeWorld) : Nat :=
  (if include_playlists ∧ playlist_limit > 0
      ∧ ¬ gateExceeded w.elapsedAtPlaylistGate b (3 / 10) then 1 else 0)
  + (if ¬ gateExceeded w.elapsedAtGenreGate b (1 / 2) then 1 else 0)
  + (if ¬ gateExceeded w.elapsedAtAudioGate b (3 / 5) then 1 else 0)

/-!
## Generic lemmas about the stable sort and fold-preserved invariants
-/

theorem mem_insertDescBy {α β : Type} [LinearOrder β] (key : α → β) (p : α)
    (l : List α) (x : α) : x ∈ insertDescBy key p l ↔ x = p ∨ x ∈ l := by
  induction l with
  | nil => simp [insertDescBy]
  | cons q qs ih =>
    unfold insertDescBy
    split
    · rw [List.mem_cons, ih, List.mem_cons]
      tauto
    · simp only [List.mem_cons]

theorem mem_sortDescBy {α β : Type} [LinearOrder β] (key : α → β)
    (l : List α) (x : α) : x ∈ sortDescBy key l ↔ x ∈ l := by
  induction l with
  | nil => simp [sortDescBy]
  | cons p ps ih =>
    unfold sortDescBy
    rw [mem_insertDescBy]
    simp [ih]

theorem pairwise_insertDescBy {α β : Type} [LinearOrder β] (key : α → β) (p : α)
    (l : List α) (h : l.Pairwise (fun a b => key b ≤ key a)) :
    (insertDescBy key p l).Pairwise (fun a b => key b ≤ key a) := by
  induction l with
  | nil => simp [insertDescBy]
  | cons q qs ih =>
    rw [List.pairwise_cons] at h
    unfold insertDescBy
    split
    · rename_i hgt
      rw [List.pairwise_cons]
      refine ⟨?_, ih h.2⟩
      intro x hx
      rcases (mem_insertDescBy key p qs x).1 hx with rfl | hx2
      · exact le_of_lt hgt
      · exact h.1 x hx2
    · rename_i hle
      push_neg at hle
      rw [List.pairwise_cons]
      constructor
      · intro x hx
        rcases hx with _ | hx2
        · exact hle
        · exact le_trans (h.1 x (by assumption)) hle
      · exact List.pairwise_cons.2 h

theorem pairwise_sortDescBy {α β : Type} [LinearOrder β] (key : α → β)
    (l : List α) : (sortDescBy key l).Pairwise (fun a b => key b ≤ key a) := by
  induction l with
  | nil => simp [sortDescBy]
  | cons p ps ih => exact pairwise_insertDescBy key p _ ih

theorem foldl_preserve {α σ : Type} (Inv : σ → Prop) (f : σ → α → σ)
    (hf : ∀ s a, Inv s → Inv (f s a)) :
    ∀ (l : List α) (s : σ), Inv s → Inv (List.foldl f s l) := by
  intro l
  induction l with
  | nil => intro s hs; exact hs
  | cons a as ih => intro s hs; exact ih (f s a) (hf s a hs)

/-- C2: when the liked-songs fetch yields zero items, no playlist tracks
were collected, and the 10-second emergency ceiling was not hit,
`analyze_taste` returns (does not raise) the explicit no-tracks error
result, which carries `track_count = 0` and an error message. -/
theorem claim_C2 (include_playlists : Bool) (playlist_limit tpp lsl : Nat)
    (max_analysis_time : ℚ) (w : AnalyzeWorld)
    (hliked : w.likedSongs = [])
    (hpl : playlistContribution w = [])
    (htime : w.elapsedAfterLiked ≤ 10) :
    analyze_taste include_playlists playlist_limit tpp lsl max_analysis_time w
      = Except.ok noTracksResult
    ∧ noTracksResult.track_count = 0 ∧ noTracksResult.error.isSome := by
  refine ⟨?_, rfl, rfl⟩
  unfold analyze_taste
  rw [hliked]
  rw [if_neg (not_lt.mpr htime)]
  simp [hpl]

/-- A concrete empty-library world for the C2 witness. -/
def c2World : AnalyzeWorld :=
  { exclusionIds := [], likedSongs := [], elapsedAfterLiked := 2,
    elapsedAtPlaylistGate := 2, playlists := [], playlistTracks := fun _ => [],
    elapsedAtGenreGate := 2, artistGenres := fun _ => [], elapsedAtAudioGate := 2,
    sampleSeed := [], audioFeatures := fun _ => [] }

/-- C2 witness: the theorem at a concrete empty-library run. -/
theorem claim_C2_witness :
    analyze_taste false 0 3 15 20 c2World = Except.ok noTracksResult
    ∧ noTracksResult.track_count = 0 ∧ noTracksResult.error.isSome :=
  claim_C2 false 0 3 15 20 c2World rfl rfl (by norm_num [c2World])

/-- C8: with the per-gate elapsed readings held fixed (the claim's
"identical per-stage elapsed-time behavior"), a strictly larger
`max_analysis_time` budget never completes fewer budget-gated stages. -/
theorem claim_C8 (include_playlists : Bool) (playlist_limit : Nat)
    (w : AnalyzeWorld) (b1 b2 : ℚ) (hb : b1 < b2) :
    stagesCompleted include_playlists playlist_limit b1 w
      ≤ stagesCompleted include_playlists playlist_limit b2 w := by
  have key : ∀ e f : ℚ, 0 ≤ f → gateExceeded e b2 f = true → gateExceeded e b1 f = true := by
    intro e f hf hg
    simp only [gateExceeded, decide_eq_true_eq] at hg ⊢
    have : b1 * f ≤ b2 * f := mul_le_mul_of_nonneg_right hb.le hf
    linarith
  unfold stagesCompleted
  have k1 : (if include_playlists ∧ playlist_limit > 0
        ∧ ¬ gateExceeded w.elapsedAtPlaylistGate b1 (3 / 10) then 1 else 0)
      ≤ (if include_playlists ∧ playlist_limit > 0
        ∧ ¬ gateExceeded w.elapsedAtPlaylistGate b2 (3 / 10) then (1 : Nat) else 0) := by
    by_cases hc : include_playlists ∧ playlist_limit > 0
        ∧ ¬ gateExceeded w.elapsedAtPlaylistGate b1 (3 / 10)
    · rw [if_pos hc, if_pos ⟨hc.1, hc.2.1, fun hg => hc.2.2 (key _ _ (by norm_num) hg)⟩]
    · rw [if_neg hc]
      exact Nat.zero_le _
  have k2 : (if ¬ gateExceeded w.elapsedAtGenreGate b1 (1 / 2) then 1 else 0)
      ≤ (if ¬ gateExceeded w.elapsedAtGenreGate b2 (1 / 2) then (1 : Nat) else 0) := by
    by_cases hc : gateExceeded w.elapsedAtGenreGate b1 (1 / 2) = true
    · rw [if_neg (not_not_intro hc)]
      exact Nat.zero_le _
    · rw [if_pos hc, if_pos (fun hg => hc (key _ _ (by norm_num) hg))]
  have k3 : (if ¬ gateExceeded w.elapsedAtAudioGate b1 (3 / 5) then 1 else 0)
      ≤ (if ¬ gateExceeded w.elapsedAtAudioGate b2 (3 / 5) then (1 : Nat) else 0) := by
    by_cases hc : gateExceeded w.elapsedAtAudioGate b1 (3 / 5) = true
    · rw [if_neg (not_not_intro hc)]
      exact Nat.zero_le _
    · rw [if_pos hc, if_pos (fun hg => hc (key _ _ (by norm_num) hg))]
  exact Nat.add_le_add (Nat.add_le_add k1 k2) k3

/-- A concrete world for the C8 witness. -/
def c8World : AnalyzeWorld :=
  { c2World with elapsedAtPlaylistGate := 4, elapsedAtGenreGate := 6, elapsedAtAudioGate := 7 }

/-- C8 witness: the monotonicity theorem at concrete budgets 10 < 20. -/
theorem claim_C8_witness :
    stagesCompleted true 1 10 c8World ≤ stagesCompleted true 1 20 c8World :=
  claim_C8 true 1 c8World 10 20 (by norm_num)

theorem truthyStr_eq_some {o : Option String} {s : String}
    (h : truthyStr o = some s) : o = some s ∧ s ≠ "" := by
  rcases o with _ | t
  · simp [truthyStr] at h
  · simp only [truthyStr] at h
    by_cases ht : t = ""
    · rw [if_pos ht] at h
      cases h
    · rw [if_neg ht] at h
      injection h with h2
      subst h2
      exact ⟨rfl, ht⟩

theorem map_fst_update {β : Type} (l : List (String × β)) (g : String × β → String × β)
    (hg : ∀ p, (g p).1 = p.1) : (l.map g).map Prod.fst = l.map Prod.fst := by
  rw [List.map_map]
  exact List.map_congr_left (fun p _ => hg p)

theorem notMem_keys_of_not_any {β : Type} (l : List (String × β)) (k : String)
    (h : ¬ l.any (fun p => p.1 = k) = true) : k ∉ l.map Prod.fst := by
  intro hk
  rw [List.mem_map] at hk
  obtain ⟨p, hp, hpk⟩ := hk
  exact h (List.any_eq_true.2 ⟨p, hp, by simp [hpk]⟩)

theorem dedupInsert_keys_nodup (acc : List (String × Track)) (tid : String) (t : Track)
    (h : (acc.map Prod.fst).Nodup) :
    ((dedupInsert acc tid t).map Prod.fst).Nodup := by
  unfold dedupInsert
  split
  · rw [map_fst_update]
    · exact h
    · intro p
      by_cases hp : p.1 = tid
      · rw [if_pos hp]
        exact hp.symm
      · rw [if_neg hp]
  · rename_i hany
    rw [List.map_append]
    simp only [List.map_cons, List.map_nil]
    rw [List.nodup_append]
    exact ⟨h, List.nodup_singleton tid,
      fun a ha hb => (notMem_keys_of_not_any acc tid hany)
        ((List.mem_singleton.1 hb) ▸ ha)⟩

theorem dedupPairs_keys_nodup :
    ∀ (ts : List Track) (acc : List (String × Track)),
      (acc.map Prod.fst).Nodup → ((dedupPairs ts acc).map Prod.fst).Nodup := by
  intro ts
  induction ts with
  | nil => intro acc hacc; exact hacc
  | cons t ts ih =>
    intro acc hacc
    unfold dedupPairs
    rcases h : truthyStr t.id with _ | tid
    · exact ih acc hacc
    · exact ih _ (dedupInsert_keys_nodup acc tid t hacc)

theorem dedupInsert_forall (P : String × Track → Prop)
    (acc : List (String × Track)) (tid : String) (t : Track)
    (hacc : ∀ p ∈ acc, P p) (hv : P (tid, t)) :
    ∀ p ∈ dedupInsert acc tid t, P p := by
  unfold dedupInsert
  split
  · intro p hp
    rw [List.mem_map] at hp
    obtain ⟨q, hq, rfl⟩ := hp
    by_cases h : q.1 = tid
    · rw [if_pos h]
      exact hv
    · rw [if_neg h]
      exact hacc q hq
  · intro p hp
    rw [List.mem_append] at hp
    rcases hp with hp | hp
    · exact hacc p hp
    · rw [List.mem_singleton] at hp
      subst hp
      exact hv

theorem dedupPairs_forall (P : String × Track → Prop)
    (hP : ∀ (t : Track) (tid : String), truthyStr t.id = some tid → P (tid, t)) :
    ∀ (ts : List Track) (acc : List (String × Track)),
      (∀ p ∈ acc, P p) → ∀ p ∈ dedupPairs ts acc, P p := by
  intro ts
  induction ts with
  | nil => intro acc hacc; exact hacc
  | cons t ts ih =>
    intro acc hacc
    unfold dedupPairs
    rcases h : truthyStr t.id with _ | tid
    · exact ih acc hacc
    · exact ih _ (dedupInsert_forall P acc tid t hacc (hP t tid h))

/-- C7: the deduplicated track collection built by `analyze_taste`
(`{track['id']: track for track in all_tracks if track.get('id')}.values()`)
carries each track id at most once, whatever duplicated input reaches
it from the liked-songs and playlist fetches. -/
theorem claim_C7 (tracks : List Track) :
    ((dedupedTracks tracks).map Track.id).Nodup := by
  have hkeys : ((dedupPairs tracks []).map Prod.fst).Nodup :=
    dedupPairs_keys_nodup tracks [] (by simp)
  have hvals : ∀ p ∈ dedupPairs tracks [], p.2.id = some p.1 :=
    dedupPairs_forall (fun p => p.2.id = some p.1)
      (fun t tid h => (truthyStr_eq_some h).1) tracks [] (by simp)
  unfold dedupedTracks
  rw [List.map_map]
  have hmc : (dedupPairs tracks []).map (Track.id ∘ fun p => p.2)
      = (dedupPairs tracks []).map (fun p => some p.1) :=
    List.map_congr_left (fun p hp => hvals p hp)
  rw [hmc]
  rw [show (fun p : String × Track => some p.1)
      = (some ∘ Prod.fst) from rfl, ← List.map_map]
  exact hkeys.map (fun a b hab => Option.some.inj hab)

theorem bumpCounter_keys_nodup (acc : List (String × Nat)) (k : String)
    (h : (acc.map Prod.fst).Nodup) : ((bumpCounter acc k).map Prod.fst).Nodup := by
  unfold bumpCounter
  split
  · rw [map_fst_update]
    · exact h
    · intro p
      by_cases hp : p.1 = k
      · rw [if_pos hp]
      · rw [if_neg hp]
  · rename_i hany
    rw [List.map_append]
    simp only [List.map_cons, List.map_nil]
    rw [List.nodup_append]
    exact ⟨h, List.nodup_singleton k,
      fun a ha hb => (notMem_keys_of_not_any acc k hany)
        ((List.mem_singleton.1 hb) ▸ ha)⟩

theorem artistCounter_keys_nodup (tracks : List Track) :
    ((artistCounter tracks).map Prod.fst).Nodup := by
  unfold artistCounter
  refine foldl_preserve (fun acc : List (String × Nat) => (acc.map Prod.fst).Nodup)
    _ ?_ tracks [] ?_
  · intro acc t hacc
    refine foldl_preserve (fun acc2 : List (String × Nat) => (acc2.map Prod.fst).Nodup)
      _ ?_ t.artists acc hacc
    intro acc2 a hacc2
    rcases h : truthyStr a.id with _ | aid
    · exact hacc2
    · exact bumpCounter_keys_nodup acc2 aid hacc2
  · simp

theorem lookupCount_eq_of_mem (l : List (String × Nat)) (k : String) (c : Nat)
    (hnd : (l.map Prod.fst).Nodup) (hmem : (k, c) ∈ l) : lookupCount l k = c := by
  induction l with
  | nil => cases hmem
  | cons p ps ih =>
    rw [List.map_cons, List.nodup_cons] at hnd
    rcases List.mem_cons.1 hmem with heq | hmem2
    · subst heq
      unfold lookupCount
      rw [List.find?_cons_of_pos _ (by simp)]
    · have hne : p.1 ≠ k := by
        intro hpk
        exact hnd.1 (hpk ▸ (List.mem_map.2 ⟨(k, c), hmem2, rfl⟩))
      unfold lookupCount
      rw [List.find?_cons_of_neg _ (by simp [hne])]
      exact ih hnd.2 hmem2

theorem pairwise_most_common (counter : List (String × Nat)) (n : Nat) :
    (most_common counter n).Pairwise (fun a b => b.2 ≤ a.2) := by
  unfold most_common
  exact (pairwise_sortDescBy (fun p => p.2) counter).sublist (List.take_sublist n _)

theorem mem_most_common (counter : List (String × Nat)) (n : Nat)
    (p : String × Nat) (h : p ∈ most_common counter n) : p ∈ counter := by
  unfold most_common at h
  exact (mem_sortDescBy _ counter p).1 (List.take_subset n _ h)

/-- C6: in the top-artist ranking that `analyze_taste` produces, an
artist occurring strictly more often than another is ranked strictly
earlier; first-seen order can only decide exact frequency ties. -/
theorem claim_C6 (tracks : List Track) (i j : Nat)
    (hi : i < (topArtistIds tracks).length) (hj : j < (topArtistIds tracks).length)
    (hcount : countOf tracks ((topArtistIds tracks)[i])
      > countOf tracks ((topArtistIds tracks)[j])) :
    i < j := by
  have hnd : ((artistCounter (dedupedTracks tracks)).map Prod.fst).Nodup :=
    artistCounter_keys_nodup (dedupedTracks tracks)
  have hlen : (topArtistIds tracks).length
      = (most_common (artistCounter (dedupedTracks tracks)) 10).length := by
    simp [topArtistIds]
  have hi2 : i < (most_common (artistCounter (dedupedTracks tracks)) 10).length := hlen ▸ hi
  have hj2 : j < (most_common (artistCounter (dedupedTracks tracks)) 10).length := hlen ▸ hj
  have hci : countOf tracks ((topArtistIds tracks)[i])
      = ((most_common (artistCounter (dedupedTracks tracks)) 10)[i]).2 := by
    have hgi : (topArtistIds tracks)[i]
        = ((most_common (artistCounter (dedupedTracks tracks)) 10)[i]).1 := by
      simp [topArtistIds]
    rw [hgi]
    exact lookupCount_eq_of_mem _ _ _ hnd
      (mem_most_common _ _ _ (List.getElem_mem hi2))
  have hcj : countOf tracks ((topArtistIds tracks)[j])
      = ((most_common (artistCounter (dedupedTracks tracks)) 10)[j]).2 := by
    have hgj : (topArtistIds tracks)[j]
        = ((most_common (artistCounter (dedupedTracks tracks)) 10)[j]).1 := by
      simp [topArtistIds]
    rw [hgj]
    exact lookupCount_eq_of_mem _ _ _ hnd
      (mem_most_common _ _ _ (List.getElem_mem hj2))
  have hp := pairwise_most_common (artistCounter (dedupedTracks tracks)) 10
  rw [List.pairwise_iff_getElem] at hp
  by_contra hij
  push_neg at hij
  rcases Nat.lt_or_eq_of_le hij with hlt | heq
  · have hle := hp j i hj2 hi2 hlt
    rw [hci, hcj] at hcount
    omega
  · subst heq
    exact lt_irrefl _ hcount

/-- Concrete tracks for the C6 witness: artist "a" occurs twice,
artist "b" once. -/
def c6Tracks : List Track :=
  [ { id := some "t1", uri := none, name := "s1",
      artists := [{ id := some "a", name := "A" }],
      album := { id := none, release_date := "" }, popularity := 0 },
    { id := some "t2", uri := none, name := "s2",
      artists := [{ id := some "a", name := "A" }],
      album := { id := none, release_date := "" }, popularity := 0 },
    { id := some "t3", uri := none, name := "s3",
      artists := [{ id := some "b", name := "B" }],
      album := { id := none, release_date := "" }, popularity := 0 } ]

/-- C6 witness: the ranking theorem at the concrete 2-vs-1 frequency
input. -/
theorem claim_C6_witness : (0 : Nat) < 1 :=
  claim_C6 c6Tracks 0 1 (by decide) (by decide) (by decide)

/-!
## Playlist materialization
(`RecommendationEngine.create_recommendation_playlist`, and the
`save_liked` mirror loop of `LikedToPlaylist.py`)
-/

/-- `track_uris = [track['uri'] for track in recommendations if track.get('uri')]`. -/
def track_uris (recommendations : List Track) : List String :=
  recommendations.filterMap (fun t => truthyStr t.uri)

/-- Fuel-indexed chunking; the fuel is only there to make the recursion
structural and is always at least the list length. -/
def chunk100Aux : Nat → List String → List (List String)
  | 0, _ => []
  | _, [] => []
  | fuel + 1, u :: us => ((u :: us).take 100) :: chunk100Aux fuel ((u :: us).drop 100)

/-- The slices `uris[i:i+100]` for `i in range(0, len(uris), 100)`. -/
def batchesOf100 (uris : List String) : List (List String) :=
  chunk100Aux uris.length uris

/-- Success of each external call of one materialization run. -/
structure PlaylistWorld where
  /-- `user_playlist_create` succeeds. -/
  createOk : Bool
  /-- `playlist_add_items` succeeds on the i-th batch. -/
  addOk : Nat → Bool

/-- What one `create_recommendation_playlist` run returns and which
batches it successfully added (the external side effect); the trace
records only additions — the source has no removal call, so nothing is
ever rolled back. -/
structure PlaylistOutcome where
  result : Except String (String × Nat)
  addedBatches : List (List String)

/-- The `for i in range(0, len(track_uris), 100): playlist_add_items`
loop: a failing call raises `SpotifyException`, leaving the batches
already added in place. -/
def addBatchesLoop (w : PlaylistWorld) :
    List (List String) → Nat → List (List String) → Option String × List (List String)
  | [], _, added => (none, added)
  | b :: bs, i, added =>
    if w.addOk i then addBatchesLoop w bs (i + 1) (added ++ [b])
    else (some "batch add failed", added)

/-- `RecommendationEngine.create_recommendation_playlist`:
`Except.error` is the returned `{'error': …}` dict, `Except.ok` the
success dict (playlist id, track count).  Name/description defaulting is
not modelled (no claim concerns it). -/
def create_recommendation_playlist (recommendations : List Track) (w : PlaylistWorld) :
    PlaylistOutcome :=
  if recommendations = [] then
    { result := Except.error "No recommendations to add to playlist", addedBatches := [] }
  else if w.createOk = false then
    { result := Except.error "Error creating recommendation playlist", addedBatches := [] }
  else
    let uris := track_uris recommendations
    match addBatchesLoop w (batchesOf100 uris) 0 [] with
    | (some msg, added) => { result := Except.error msg, addedBatches := added }
    | (none, added) => { result := Except.ok ("playlist_id", uris.length), addedBatches := added }

/-- One page of the `save_liked` loop: the uris not seen before, plus
the updated seen set. -/
def save_liked_page (page : List String) (seen : List String) :
    List String × List String :=
  page.foldl
    (fun acc uri => if uri ∈ acc.2 then acc else (acc.1 ++ [uri], uri :: acc.2))
    ([], seen)

/-- Every `user_playlist_add_tracks` call of the `save_liked` pagination
loop, given the uri pages the saved-tracks API returns. -/
def save_liked_add_calls : List (List String) → List String → List (List String)
  | [], _ => []
  | page :: rest, seen =>
    let p := save_liked_page page seen
    batchesOf100 p.1 ++ save_liked_add_calls rest p.2

theorem chunk100Aux_mem_le :
    ∀ (fuel : Nat) (l : List String) (b : List String),
      b ∈ chunk100Aux fuel l → b.length ≤ 100 := by
  intro fuel
  induction fuel with
  | zero =>
    intro l b h
    cases l <;> simp [chunk100Aux] at h
  | succ fuel ih =>
    intro l b h
    cases l with
    | nil => simp [chunk100Aux] at h
    | cons u us =>
      rcases List.mem_cons.1 h with rfl | h2
      · rw [List.length_take]
        omega
      · exact ih _ b h2

theorem mem_batchesOf100_le (uris : List String) (b : List String)
    (h : b ∈ batchesOf100 uris) : b.length ≤ 100 :=
  chunk100Aux_mem_le uris.length uris b h

theorem save_liked_add_calls_le :
    ∀ (pages : List (List String)) (seen : List String) (b : List String),
      b ∈ save_liked_add_calls pages seen → b.length ≤ 100 := by
  intro pages
  induction pages with
  | nil => intro seen b h; cases h
  | cons page rest ih =>
    intro seen b h
    unfold save_liked_add_calls at h
    rcases List.mem_append.1 h with h2 | h2
    · exact mem_batchesOf100_le _ b h2
    · exact ih _ b h2

/-- An all-successful world for counting add calls. -/
def allOkWorld : PlaylistWorld :=
  { createOk := true, addOk := fun _ => true }

/-- The number of `playlist_add_items` calls one (all-successful)
materialization run makes. -/
def numAddCalls (recommendations : List Track) : Nat :=
  (create_recommendation_playlist recommendations allOkWorld).addedBatches.length

/-- A recommendation list of `n` tracks, each with a uri. -/
def mkRecs (n : Nat) : List Track :=
  (List.range n).map (fun _ =>
    { id := none, uri := some "u", name := "r",
      artists := [], album := { id := none, release_date := "" }, popularity := 0 })

set_option maxRecDepth 4000 in
/-- C3: every add call carries at most 100 uris — in the recommendation
materializer and in the `save_liked` mirror loop alike — and for
recommendation lists of 0, 1, 100, 101 and 250 tracks the materializer
makes exactly 0, 1, 1, 2 and 3 add calls. -/
theorem claim_C3 :
    (∀ (recommendations : List Track) (b : List String),
      b ∈ batchesOf100 (track_uris recommendations) → b.length ≤ 100)
    ∧ (∀ (pages : List (List String)) (seen : List String) (b : List String),
      b ∈ save_liked_add_calls pages seen → b.length ≤ 100)
    ∧ numAddCalls (mkRecs 0) = 0 ∧ numAddCalls (mkRecs 1) = 1
    ∧ numAddCalls (mkRecs 100) = 1 ∧ numAddCalls (mkRecs 101) = 2
    ∧ numAddCalls (mkRecs 250) = 3 :=
  ⟨fun recommendations b h => mem_batchesOf100_le (track_uris recommendations) b h,
   fun pages seen b h => save_liked_add_calls_le pages seen b h,
   by decide, by decide, by decide, by decide, by decide⟩

/-- C3 witness: the bound applied to a concrete batch of a concrete run. -/
theorem claim_C3_witness : (["u"] : List String).length ≤ 100 :=
  claim_C3.1 (mkRecs 1) ["u"] (by decide)

theorem addBatchesLoop_fail (w : PlaylistWorld) :
    ∀ (m : Nat) (bs : List (List String)) (i : Nat) (added : List (List String)),
      (∀ k, k < m → w.addOk (i + k) = true) → w.addOk (i + m) = false →
      m < bs.length →
      addBatchesLoop w bs i added = (some "batch add failed", added ++ bs.take m) := by
  intro m
  induction m with
  | zero =>
    intro bs i added hok hfail hlen
    cases bs with
    | nil => simp at hlen
    | cons b bs2 =>
      unfold addBatchesLoop
      rw [Nat.add_zero] at hfail
      rw [if_neg (by rw [hfail]; exact Bool.false_ne_true)]
      simp
  | succ m ih =>
    intro bs i added hok hfail hlen
    cases bs with
    | nil => simp at hlen
    | cons b bs2 =>
      unfold addBatchesLoop
      have h0 : w.addOk i = true := by
        have := hok 0 (Nat.succ_pos m)
        rwa [Nat.add_zero] at this
      rw [if_pos h0]
      have hok2 : ∀ k, k < m → w.addOk (i + 1 + k) = true := by
        intro k hk
        have h2 := hok (k + 1) (by omega)
        rwa [show i + (k + 1) = i + 1 + k by omega] at h2
      have hfail2 : w.addOk (i + 1 + m) = false := by
        rwa [show i + (m + 1) = i + 1 + m by omega] at hfail
      have hlen2 : m < bs2.length := by
        simp at hlen
        omega
      rw [ih bs2 (i + 1) (added ++ [b]) hok2 hfail2 hlen2]
      simp

/-- C5: if playlist creation fails, `create_recommendation_playlist`
returns an error dict and adds nothing; if creation succeeds and the
j-th batch-add call is the first to fail, it returns an error dict and
exactly the j batches already added stay added — the effect trace has no
removal operation, so no rollback occurs. -/
theorem claim_C5 :
    (∀ (recommendations : List Track) (w : PlaylistWorld),
      recommendations ≠ [] → w.createOk = false →
      (∃ msg, (create_recommendation_playlist recommendations w).result = Except.error msg)
      ∧ (create_recommendation_playlist recommendations w).addedBatches = [])
    ∧ (∀ (recommendations : List Track) (w : PlaylistWorld) (j : Nat),
      recommendations ≠ [] → w.createOk = true →
      (∀ k, k < j → w.addOk k = true) → w.addOk j = false →
      j < (batchesOf100 (track_uris recommendations)).length →
      (∃ msg, (create_recommendation_playlist recommendations w).result = Except.error msg)
      ∧ (create_recommendation_playlist recommendations w).addedBatches
        = (batchesOf100 (track_uris recommendations)).take j) := by
  constructor
  · intro recommendations w hne hcreate
    unfold create_recommendation_playlist
    rw [if_neg hne, if_pos hcreate]
    exact ⟨⟨"Error creating recommendation playlist", rfl⟩, rfl⟩
  · intro recommendations w j hne hcreate hok hfail hlen
    unfold create_recommendation_playlist
    rw [if_neg hne, if_neg (by simp [hcreate])]
    have hloop := addBatchesLoop_fail w j (batchesOf100 (track_uris recommendations)) 0 []
      (by intro k hk; rw [Nat.zero_add]; exact hok k hk)
      (by rw [Nat.zero_add]; exact hfail)
      hlen
    simp only [hloop]
    exact ⟨⟨"batch add failed", rfl⟩, by simp⟩

/-- A world whose second batch-add call fails. -/
def c5World : PlaylistWorld :=
  { createOk := true, addOk := fun i => i == 0 }

set_option maxRecDepth 2000 in
/-- C5 witness: the partial-failure case at a concrete 150-track run
(two batches, the second one failing). -/
theorem claim_C5_witness :
    (∃ msg, (create_recommendation_playlist (mkRecs 150) c5World).result = Except.error msg)
    ∧ (create_recommendation_playlist (mkRecs 150) c5World).addedBatches
      = (batchesOf100 (track_uris (mkRecs 150))).take 1 :=
  claim_C5.2 (mkRecs 150) c5World 1 (by decide) rfl
    (by intro k hk; have hk0 : k = 0 := by omega
        subst hk0; rfl)
    rfl (by decide)

/-!
## Recommendation engine (`RecommendationEngine.generate_recommendations`)

All Spotify responses, the MusicBrainz enrichment and the random draws
of one run are world data.  The two `random.shuffle` calls and the
`random.sample` calls are modelled by world-chosen index draws; a
shuffle application is the identity unless the draws form a permutation
of the index range, so it is always a permutation of its input, as a
real shuffle is.
-/

/-- World data of one `generate_recommendations` run. -/
structure World where
  /-- result of `get_user_top_artists(limit=10)` ([] on failure). -/
  spotifyTopArtists : List String
  /-- the `random.sample(..., 5)` choice, as index draws. -/
  sampleDraws : List Nat
  /-- `artist_top_tracks` response per artist (before the `[:limit]`). -/
  topTracks : String → List Track
  /-- `artist_albums(..., limit)` response per artist. -/
  recentAlbums : String → List SimpleAlbum
  /-- `album_tracks` response per album. -/
  albumTracks : String → List Track
  /-- `artist_related_artists` response ids per artist ([] when the
  deprecated endpoint fails). -/
  relatedArtists : String → List String
  /-- artist search response per genre query. -/
  searchArtists : String → List SimpleArtist
  /-- the `random.shuffle` draw for the discovered-artist list. -/
  shuffleArtists : List Nat
  /-- the `random.shuffle` draw for the candidate-track list. -/
  shuffleTracks : List Nat
  /-- `sp.artist(...)` genre lookup inside `score_track` (`none` = call failed). -/
  artistGenres : String → Option (List String)
  /-- MusicBrainz enrichment per artist id. -/
  mbLookup : String → Option MBData
  /-- the `random.uniform(-5, 5)` draw of each scoring call. -/
  jitter : Nat → ℚ
  /-- `datetime.now().year`. -/
  currentYear : Int

/-- A world-chosen permutation (`random.shuffle`): identity unless the
draws enumerate the index range exactly once each. -/
def applyPerm {α : Type} (draws : List Nat) (l : List α) : List α :=
  if draws.Perm (List.range l.length) then draws.filterMap (fun i => l[i]?) else l

/-- `random.sample(population, 5)` guarded by `len(population) > 5`,
as in all three call sites. -/
def sampleFive (draws : List Nat) (l : List String) : List String :=
  if 5 < l.length then (draws.filterMap (fun i => l[i]?)).take 5 else l

/-- Step 1 of `generate_recommendations`: the ≤5 seed artists, preferring
Spotify's own top-artists list and falling back to the profile's
`top_artist_ids[:5]`. -/
def seedArtists (analysis : Analysis) (w : World) : List String :=
  if w.spotifyTopArtists ≠ [] then sampleFive w.sampleDraws w.spotifyTopArtists
  else sampleFive w.sampleDraws (analysis.top_artist_ids.take 5)

/-- Running state of candidate collection: collected tracks, the
`artist_track_ids` dedup set, and the per-artist counter. -/
structure CollectSt where
  candidates : List Track
  seenIds : List String
  fromThis : Nat

/-- The inner `for track in …` loop shared by all three collection
sites: stop at the per-artist cap, skip tracks without a (truthy) id,
skip already-liked ids (the exclusion), skip ids already collected. -/
def trackLoop (liked : List String) (cap : Nat) : List Track → CollectSt → CollectSt
  | [], st => st
  | t :: ts, st =>
    if st.fromThis ≥ cap then st
    else
      match truthyStr t.id with
      | some tid =>
        if tid ∈ liked then trackLoop liked cap ts st
        else if tid ∉ st.seenIds then
          trackLoop liked cap ts
            { candidates := st.candidates ++ [t], seenIds := tid :: st.seenIds,
              fromThis := st.fromThis + 1 }
        else trackLoop liked cap ts st
      | none => trackLoop liked cap ts st

/-- The `for album in recent_albums` loop (3 tracks per album). -/
def albumLoop (w : World) (liked : List String) (cap : Nat) :
    List SimpleAlbum → CollectSt → CollectSt
  | [], st => st
  | alb :: rest, st =>
    if st.fromThis ≥ cap then st
    else
      match truthyStr alb.id with
      | some aid =>
        albumLoop w liked cap rest (trackLoop liked cap ((w.albumTracks aid).take 3) st)
      | none => albumLoop w liked cap rest st

/-- PART A, one familiar artist: top tracks (≤5) then, if the cap is not
yet reached, tracks of the most recent album/single. -/
def familiarFromArtist (w : World) (liked : List String) (cap : Nat)
    (st : CollectSt) (artist_id : String) : CollectSt :=
  let st1 := trackLoop liked cap ((w.topTracks artist_id).take 5) { st with fromThis := 0 }
  if st1.fromThis < cap then
    albumLoop w liked cap ((w.recentAlbums artist_id).take 1) st1
  else st1

/-- PART B, one discovered artist: top tracks only. -/
def discoveryFromArtist (w : World) (liked : List String) (cap : Nat)
    (st : CollectSt) (artist_id : String) : CollectSt :=
  trackLoop liked cap ((w.topTracks artist_id).take 5) { st with fromThis := 0 }

/-- Inner loop of `discover_artists_by_genre` over one search result
page; the Bool flags the early `return` at the limit. -/
def genreArtistLoop (limit : Nat) :
    List SimpleArtist → List String × List String → (List String × List String) × Bool
  | [], st => (st, false)
  | a :: rest, st =>
    match truthyStr a.id with
    | some aid =>
      if aid ∉ st.2 then
        let found := st.1 ++ [aid]
        let seen := aid :: st.2
        if found.length ≥ limit then ((found, seen), true)
        else genreArtistLoop limit rest (found, seen)
      else genreArtistLoop limit rest st
    | none => genreArtistLoop limit rest st

/-- Outer loop of `discover_artists_by_genre` over the top-3 genres. -/
def genreSearchLoop (w : World) (limit : Nat) :
    List String → List String × List String → List String
  | [], st => st.1
  | g :: gs, st =>
    match genreArtistLoop limit ((w.searchArtists g).take 10) st with
    | (st2, true) => st2.1
    | (st2, false) => genreSearchLoop w limit gs st2

/-- `RecommendationEngine.discover_artists_by_genre`. -/
def discover_artists_by_genre (w : World) (genres exclude_artist_ids : List String)
    (limit : Nat) : List String :=
  genreSearchLoop w limit (genres.take 3) ([], exclude_artist_ids)

/-- Steps 2-3 of `generate_recommendations`: candidate collection from
the familiar pool and (when `discovery_level > 20`) the discovery pool.
`list(set(...))` on the discovered-artist ids is modelled as
first-occurrence dedup followed by the world-chosen shuffle. -/
def collectCandidates (w : World) (liked top_artist_ids user_genres : List String)
    (discovery_level : Int) : List Track :=
  let counts := if discovery_level < 30 then ((8 : Nat), (2 : Nat))
    else if discovery_level > 70 then (3, 7) else (5, 5)
  let g1 := top_artist_ids.foldl (familiarFromArtist w liked counts.1)
    { candidates := [], seenIds := [], fromThis := 0 }
  if discovery_level > 20 then
    let related := (top_artist_ids.take 3).foldl
      (fun acc a => acc ++ (w.relatedArtists a).take 2) []
    let related2 := if related.length < 5 then
        related ++ discover_artists_by_genre w user_genres top_artist_ids 10
      else related
    let related3 := applyPerm w.shuffleArtists related2.eraseDups
    let n := min related3.length 5
    ((related3.take n).foldl (discoveryFromArtist w liked counts.2) g1).candidates
  else g1.candidates

/-- `seen_albums.add(album_id)` after scoring each track. -/
def updateSeenAlbums (seen : List String) (t : Track) : List String :=
  match truthyStr t.album.id with
  | some aid => if aid ∈ seen then seen else aid :: seen
  | none => seen

/-- The scoring pass: one `score_track` call per candidate, with a fresh
jitter draw per call and the running seen-albums set. -/
def scoreCandidates (w : World) (user_genres top_artist_ids : List String)
    (prefs : Preferences) : List Track → Nat → List String → List (ℚ × Track)
  | [], _, _ => []
  | t :: ts, i, seen_albums =>
    (score_track t user_genres top_artist_ids w.artistGenres w.mbLookup seen_albums prefs
        w.currentYear (w.jitter i), t)
      :: scoreCandidates w user_genres top_artist_ids prefs ts (i + 1)
        (updateSeenAlbums seen_albums t)

/-- `user_genres = [g for g, _ in analysis.get('top_genres', [])][:5]`. -/
def userGenres (analysis : Analysis) : List String :=
  (analysis.top_genres.map (fun p => p.1)).take 5

/-- `preferences.get('discovery', 50) if preferences else 50`. -/
def discoveryLevel (preferences : Option Preferences) : Int :=
  match preferences with
  | some p => p.discovery.getD 50
  | none => 50

/-- `RecommendationEngine.generate_recommendations`.  Note the early
return fires on a truthy `error` value (`if analysis.get('error'):`),
not on mere presence of the key. -/
def generate_recommendations (analysis : Analysis) (limit : Nat)
    (preferences : Option Preferences) (w : World) : List Track :=
  if (truthyStr analysis.error).isSome then []
  else
    let user_genres := userGenres analysis
    let user_liked_track_ids := analysis.liked_track_ids
    let top_artist_ids := seedArtists analysis w
    if top_artist_ids = [] then []
    else
      let candidate_tracks := collectCandidates w user_liked_track_ids top_artist_ids
        user_genres (discoveryLevel preferences)
      if candidate_tracks = [] then []
      else
        let shuffled := applyPerm w.shuffleTracks candidate_tracks
        let scored := scoreCandidates w user_genres top_artist_ids
          (preferences.getD { mood := none, era := none, discovery := none }) shuffled 0 []
        let ranked := sortDescBy (fun p => p.1) scored
        (ranked.take limit).map (fun p => p.2)

/-- A track acceptable for output: its id (when present) is not in the
exclusion set. -/
def notLiked (liked : List String) (t : Track) : Prop :=
  ∀ tid, t.id = some tid → tid ∉ liked

theorem mem_applyPerm {α : Type} (draws : List Nat) (l : List α) (x : α)
    (h : x ∈ applyPerm draws l) : x ∈ l := by
  unfold applyPerm at h
  split at h
  · rcases List.mem_filterMap.1 h with ⟨i, _, hi⟩
    exact List.getElem?_mem hi
  · exact h

theorem trackLoop_inv (liked : List String) (cap : Nat) :
    ∀ (ts : List Track) (st : CollectSt),
      (∀ t ∈ st.candidates, notLiked liked t) →
      ∀ t ∈ (trackLoop liked cap ts st).candidates, notLiked liked t := by
  intro ts
  induction ts with
  | nil => intro st h; exact h
  | cons t ts ih =>
    intro st h
    unfold trackLoop
    split
    · exact h
    · rcases h2 : truthyStr t.id with _ | tid
      · simp only [h2]
        exact ih st h
      · simp only [h2]
        split
        · exact ih st h
        · split
          · rename_i hnotliked hnotseen
            refine ih _ ?_
            intro u hu
            rcases List.mem_append.1 hu with hu2 | hu2
            · exact h u hu2
            · rw [List.mem_singleton] at hu2
              subst hu2
              intro tid2 hid2
              obtain ⟨hid, -⟩ := truthyStr_eq_some h2
              rw [hid] at hid2
              injection hid2 with he
              subst he
              exact hnotliked
          · exact ih st h

theorem albumLoop_inv (w : World) (liked : List String) (cap : Nat) :
    ∀ (albums : List SimpleAlbum) (st : CollectSt),
      (∀ t ∈ st.candidates, notLiked liked t) →
      ∀ t ∈ (albumLoop w liked cap albums st).candidates, notLiked liked t := by
  intro albums
  induction albums with
  | nil => intro st h; exact h
  | cons alb rest ih =>
    intro st h
    unfold albumLoop
    split
    · exact h
    · rcases h2 : truthyStr alb.id with _ | aid
      · simp only [h2]
        exact ih st h
      · simp only [h2]
        exact ih _ (trackLoop_inv liked cap _ st h)

theorem familiarFromArtist_inv (w : World) (liked : List String) (cap : Nat)
    (st : CollectSt) (artist_id : String)
    (h : ∀ t ∈ st.candidates, notLiked liked t) :
    ∀ t ∈ (familiarFromArtist w liked cap st artist_id).candidates, notLiked liked t := by
  simp only [familiarFromArtist]
  have h1 := trackLoop_inv liked cap ((w.topTracks artist_id).take 5)
    { st with fromThis := 0 } h
  split
  · exact albumLoop_inv w liked cap _ _ h1
  · exact h1

theorem discoveryFromArtist_inv (w : World) (liked : List String) (cap : Nat)
    (st : CollectSt) (artist_id : String)
    (h : ∀ t ∈ st.candidates, notLiked liked t) :
    ∀ t ∈ (discoveryFromArtist w liked cap st artist_id).candidates, notLiked liked t :=
  trackLoop_inv liked cap _ _ h

theorem familiar_fold_inv (w : World) (liked : List String) (cap : Nat)
    (l : List String) (st : CollectSt)
    (h : ∀ t ∈ st.candidates, notLiked liked t) :
    ∀ t ∈ (l.foldl (familiarFromArtist w liked cap) st).candidates, notLiked liked t :=
  foldl_preserve (fun st : CollectSt => ∀ t ∈ st.candidates, notLiked liked t)
    (familiarFromArtist w liked cap)
    (fun st a hst => familiarFromArtist_inv w liked cap st a hst) l st h

theorem discovery_fold_inv (w : World) (liked : List String) (cap : Nat)
    (l : List String) (st : CollectSt)
    (h : ∀ t ∈ st.candidates, notLiked liked t) :
    ∀ t ∈ (l.foldl (discoveryFromArtist w liked cap) st).candidates, notLiked liked t :=
  foldl_preserve (fun st : CollectSt => ∀ t ∈ st.candidates, notLiked liked t)
    (discoveryFromArtist w liked cap)
    (fun st a hst => discoveryFromArtist_inv w liked cap st a hst) l st h

theorem collectCandidates_inv (w : World)
    (liked top_artist_ids user_genres : List String) (discovery_level : Int) :
    ∀ t ∈ collectCandidates w liked top_artist_ids user_genres discovery_level,
      notLiked liked t := by
  simp only [collectCandidates]
  split
  · exact discovery_fold_inv w liked _ _ _
      (familiar_fold_inv w liked _ top_artist_ids _ (fun t ht => by cases ht))
  · exact familiar_fold_inv w liked _ top_artist_ids _ (fun t ht => by cases ht)

theorem scoreCandidates_mem (w : World) (user_genres top_artist_ids : List String)
    (prefs : Preferences) :
    ∀ (ts : List Track) (i : Nat) (seen : List String) (s : ℚ) (t : Track),
      (s, t) ∈ scoreCandidates w user_genres top_artist_ids prefs ts i seen → t ∈ ts := by
  intro ts
  induction ts with
  | nil => intro i seen s t h; cases h
  | cons t0 ts ih =>
    intro i seen s t h
    unfold scoreCandidates at h
    rcases List.mem_cons.1 h with heq | h2
    · have he : t = t0 := congrArg Prod.snd heq
      rw [he]
      exact List.mem_cons_self t0 ts
    · exact List.mem_cons_of_mem t0 (ih _ _ s t h2)

/-- C1: no track returned by `generate_recommendations` has an id in
the profile's exclusion set (`liked_track_ids`); the exclusion guard
runs in the familiar pool and in the discovery pool, and scoring,
shuffling, ranking and truncation only ever select among the collected
candidates. -/
theorem claim_C1 (analysis : Analysis) (limit : Nat)
    (preferences : Option Preferences) (w : World) (t : Track)
    (ht : t ∈ generate_recommendations analysis limit preferences w)
    (tid : String) (hid : t.id = some tid) : tid ∉ analysis.liked_track_ids := by
  unfold generate_recommendations at ht
  split at ht
  · cases ht
  · simp only [] at ht
    split at ht
    · cases ht
    · split at ht
      · cases ht
      · rcases List.mem_map.1 ht with ⟨⟨s, u⟩, hmem, hequ⟩
        have hu : u = t := hequ
        subst hu
        have h2 : (s, u) ∈ sortDescBy (fun p : ℚ × Track => p.1)
            (scoreCandidates w (userGenres analysis) (seedArtists analysis w)
              (preferences.getD { mood := none, era := none, discovery := none })
              (applyPerm w.shuffleTracks
                (collectCandidates w analysis.liked_track_ids (seedArtists analysis w)
                  (userGenres analysis) (discoveryLevel preferences))) 0 []) :=
          List.take_subset limit _ hmem
        have h3 := (mem_sortDescBy (fun p : ℚ × Track => p.1) _ _).1 h2
        have h4 := scoreCandidates_mem w (userGenres analysis) (seedArtists analysis w)
          (preferences.getD { mood := none, era := none, discovery := none }) _ 0 [] s u h3
        have h5 := mem_applyPerm w.shuffleTracks _ u h4
        exact collectCandidates_inv w analysis.liked_track_ids (seedArtists analysis w)
          (userGenres analysis) (discoveryLevel preferences) u h5 tid hid

/-- A candidate track for concrete engine runs. -/
def exC1Track : Track :=
  { id := some "cx", uri := some "ux", name := "nx",
    artists := [{ id := some "a1", name := "A1" }],
    album := { id := some "alx", release_date := "2024-01-01" }, popularity := 50 }

/-- An already-liked track (its id is in the exclusion set). -/
def exC1Liked : Track :=
  { id := some "lk1", uri := some "ul", name := "nl",
    artists := [{ id := some "a1", name := "A1" }],
    album := { id := some "all", release_date := "2020-01-01" }, popularity := 60 }

/-- A profile whose exclusion set holds the liked track's id. -/
def exC1Analysis : Analysis :=
  { error := none, track_count := 1, unique_artists := 1, top_genres := [],
    top_artist_ids := ["a1"], avg_audio_features := [], genre_seeds := [],
    liked_track_ids := ["lk1"] }

/-- A world where the seed artist's top tracks are the liked track
followed by one new track. -/
def exC1World : World :=
  { spotifyTopArtists := [], sampleDraws := [],
    topTracks := fun _ => [exC1Liked, exC1Track],
    recentAlbums := fun _ => [], albumTracks := fun _ => [],
    relatedArtists := fun _ => [], searchArtists := fun _ => [],
    shuffleArtists := [], shuffleTracks := [0],
    artistGenres := fun _ => none, mbLookup := fun _ => none,
    jitter := fun _ => 0, currentYear := 2025 }

/-- C1 witness: the exclusion theorem at a concrete run whose output is
the single non-liked candidate. -/
theorem claim_C1_witness : "cx" ∉ exC1Analysis.liked_track_ids :=
  claim_C1 exC1Analysis 20 none exC1World exC1Track (by decide) "cx" rfl

/-- C10 amended: `generate_recommendations` returns `[]` whenever the
analysis carries a truthy (non-empty) error value, or no seed artists
are obtained from either source, or candidate collection comes back
empty. -/
theorem claim_C10 (analysis : Analysis) (limit : Nat)
    (preferences : Option Preferences) (w : World)
    (h : (truthyStr analysis.error).isSome
      ∨ seedArtists analysis w = []
      ∨ collectCandidates w analysis.liked_track_ids (seedArtists analysis w)
          (userGenres analysis) (discoveryLevel preferences) = []) :
    generate_recommendations analysis limit preferences w = [] := by
  unfold generate_recommendations
  rcases h with h | h | h
  · rw [if_pos h]
  · split
    · rfl
    · simp only []
      rw [if_pos h]
  · split
    · rfl
    · simp only []
      rw [if_pos h]
      split <;> rfl

/-- A profile dict that contains the `error` key with a falsy (empty
string) value. -/
def exC10Analysis : Analysis :=
  { error := some "", track_count := 1, unique_artists := 1, top_genres := [],
    top_artist_ids := ["a1"], avg_audio_features := [], genre_seeds := [],
    liked_track_ids := ["lk1"] }

/-- C10 counterexample: an analysis dict that contains the `'error'`
key (with the falsy value `''`) for which `generate_recommendations`
still returns a non-empty list — `if analysis.get('error'):` tests
truthiness, not key presence. -/
theorem claim_C10_counterexample :
    exC10Analysis.error.isSome
    ∧ generate_recommendations exC10Analysis 20 none exC1World ≠ [] :=
  ⟨rfl, by decide⟩

/-- A profile dict carrying a truthy error value. -/
def exC10ErrAnalysis : Analysis :=
  { exC10Analysis with error := some "No tracks found to analyze" }

/-- C10 witness: the amended theorem at a concrete truthy-error input. -/
theorem claim_C10_witness :
    generate_recommendations exC10ErrAnalysis 20 none exC1World = [] :=
  claim_C10 exC10ErrAnalysis 20 none exC1World (Or.inl (by decide))
